import Mathlib

/-!
Shallow embedding of the session-cache and media-composition logic of
`app.py` and `app2.py` (Automated_Insta_Posting).

The session file is modelled as an optional file content (`Store`): `none`
when `os.path.exists(SESSION_FILE)` is false, otherwise either a valid
pickle of a Python dict (modelled as an association list of string keys to
opaque blobs) or corrupt/truncated bytes.  Python exceptions are an
explicit `Exc` type and fallible operations return `Except Exc _`.
External effects (the `current_user()` probe, the outcome of `api.login`,
whether the medium fails while writing) are parameters of the embedding.
-/

set_option linter.unusedVariables false

/-- An opaque serialized blob (a cookie jar or client settings). -/
abbrev Blob := String

/-- The in-memory authenticated client: `api.cookie_jar` and `api.settings`. -/
structure Client where
  cookie_jar : Blob
  settings : Blob
deriving DecidableEq, Repr

/-- A Python dict as pickled by `save_session`, as an association list. -/
abbrev PDict := List (String × Blob)

/-- Contents of the session file: a valid pickle of a dict, or bytes on
which `pickle.load` fails (truncated / corrupt). -/
inductive FileContent where
  | pickled (d : PDict)
  | corrupt
deriving DecidableEq, Repr

/-- The session file; `none` means the file does not exist. -/
abbrev Store := Option FileContent

/-- Python exceptions relevant to the two scripts. -/
inductive Exc where
  | clientCookieExpired
  | clientLogin
  | unpickling
  | keyError (k : String)
  | ioError
  | fileNotFound
  | nameError (missing : String)
  | otherError
deriving DecidableEq, Repr

/-- Whether the underlying medium fails while `pickle.dump` is writing. -/
inductive WriteOutcome where
  | ok
  | failsDuringWrite
deriving DecidableEq, Repr

/-- `data[k]` on a pickled dict: the value, or a raised `KeyError`. -/
def dictGet (d : PDict) (k : String) : Except Exc Blob :=
  match List.lookup k d with
  | some v => .ok v
  | none => .error (.keyError k)

/-- `app.py` `save_session`: `open(SESSION_FILE, 'wb')` truncates the file in
place, then `pickle.dump({'cookie': api.cookie_jar, 'settings': api.settings}, f)`
writes the new record.  No exception is caught.  A failure during the write
raises and leaves the truncated, partially written file behind; the prior
store content is destroyed either way. -/
def save_session_app1 (api : Client) (store : Store) (w : WriteOutcome) :
    Except Exc Unit × Store :=
  match w with
  | .ok => (.ok (), some (.pickled [("cookie", api.cookie_jar), ("settings", api.settings)]))
  | .failsDuringWrite => (.error .ioError, some .corrupt)

/-- `app.py` `load_session`: opens the file, `pickle.load`s it, and builds
`Client(auto_patch=True, authenticate=False, settings=data['settings'],
cookie=data['cookie'])`.  Nothing is caught here: a missing file, corrupt
pickle, or missing dict key raises. -/
def load_session_app1 (store : Store) : Except Exc Client :=
  match store with
  | none => .error .fileNotFound
  | some .corrupt => .error .unpickling
  | some (.pickled d) => do
      let s ← dictGet d "settings"
      let c ← dictGet d "cookie"
      pure { cookie_jar := c, settings := s }

/-- Result of one run of a `get_api`/`login` entry point: what is returned
(or raised), the final file state, how many `save_session` calls happened,
and how many `api.login(...)` attempts were performed. -/
structure RunResult (α : Type) where
  outcome : Except Exc α
  store : Store
  saves : Nat
  loginAttempts : Nat
deriving Repr

/-- `app.py` `login()`: `api = Client(); api.login(user, pass);
save_session(api); return api`.  `loginResult` is the outcome of the single
`api.login` call.  A raise from `api.login` or from `save_session`
propagates to the caller. -/
def login_app1 (loginResult : Except Exc Client) (w : WriteOutcome) (store : Store) :
    RunResult Client :=
  match loginResult with
  | .error e => ⟨.error e, store, 0, 1⟩
  | .ok api =>
    match save_session_app1 api store w with
    | (.ok _, store') => ⟨.ok api, store', 1, 1⟩
    | (.error e, store') => ⟨.error e, store', 1, 1⟩

/-- External outcomes for one `app.py` `get_api` run: the result of
`api.current_user()` on a loaded client, the result of a fresh
`api.login`, and the write medium's behaviour. -/
structure Env where
  probe : Except Exc Unit
  loginResult : Except Exc Client
  write : WriteOutcome

/-- The exception classes caught by `app.py` `get_api`'s handler
`except (ClientCookieExpiredError, ClientLoginError)`; both names are
imported in `app.py`. -/
def caughtByGetApi1 (e : Exc) : Bool :=
  match e with
  | .clientCookieExpired => true
  | .clientLogin => true
  | _ => false

/-- The body of the `try` in `app.py` `get_api`: load the session, then
probe it with `api.current_user()`. -/
def tryLoadAndProbe1 (store : Store) (probe : Except Exc Unit) : Except Exc Client := do
  let api ← load_session_app1 store
  let _ ← probe
  pure api

/-- `app.py` `get_api`: if the session file exists, try to load and probe
it, catching only `ClientCookieExpiredError` and `ClientLoginError` (any
other raise — e.g. a pickle error — propagates); otherwise, or after a
caught expiry, perform a fresh `login()`. -/
def get_api_app1 (store : Store) (env : Env) : RunResult Client :=
  if store.isSome then
    match tryLoadAndProbe1 store env.probe with
    | .ok api => ⟨.ok api, store, 0, 0⟩
    | .error e =>
      if caughtByGetApi1 e then login_app1 env.loginResult env.write store
      else ⟨.error e, store, 0, 0⟩
  else
    login_app1 env.loginResult env.write store

/-- `app2.py` `save_session`: the same truncating write, wrapped in
`try/except Exception`; on failure `st.error(...)` reports it and the
function returns normally.  The `Bool` records whether an error was
reported. -/
def save_session_app2 (api : Client) (store : Store) (w : WriteOutcome) :
    Store × Bool :=
  match w with
  | .ok => (some (.pickled [("cookie", api.cookie_jar), ("settings", api.settings)]), false)
  | .failsDuringWrite => (some .corrupt, true)

/-- `app2.py` `load_session`: checks `os.path.exists` itself, reads
`data['settings']` and `data['cookie_jar']` (note: `save_session` writes
the key `'cookie'`, not `'cookie_jar'`), and catches every exception,
returning `None` in each failure case. -/
def load_session_app2 (store : Store) : Option Client :=
  match store with
  | none => none
  | some .corrupt => none
  | some (.pickled d) =>
    match List.lookup "settings" d, List.lookup "cookie_jar" d with
    | some s, some c => some { cookie_jar := c, settings := s }
    | _, _ => none

/-- Outcome of one `Client(user, pass); api.login()` attempt in `app2.py`. -/
inductive AttemptResult where
  | success (api : Client)
  | clientLoginErr
  | checkpointErr
  | otherErr
deriving Repr

/-- The loop body of `app2.py` `login(retries=3, delay=5)`, with `i`
attempts already made and `fuel` iterations of `range(retries)` left.
The handler `except ClientCheckpointChallengeError` names an identifier
that is never imported or defined in `app2.py`: in Python, matching a
raised exception against an unbound handler name raises `NameError`,
which propagates immediately (later handlers of the same `try` do not
apply), so the retry/sleep branch — and the final `except Exception`
clause for any non-`ClientLoginError` raise — is unreachable at runtime
and the loop never performs a second iteration. -/
def login_app2_go (attempts : Nat → AttemptResult) (w : WriteOutcome) (store : Store)
    (i fuel : Nat) : RunResult (Option Client) :=
  match fuel with
  | 0 => ⟨.ok none, store, 0, i⟩
  | _fuel' + 1 =>
    match attempts i with
    | .success api =>
        let (store', _errReported) := save_session_app2 api store w
        ⟨.ok (some api), store', 1, i + 1⟩
    | .clientLoginErr => ⟨.ok none, store, 0, i + 1⟩
    | .checkpointErr =>
        ⟨.error (.nameError "ClientCheckpointChallengeError"), store, 0, i + 1⟩
    | .otherErr =>
        ⟨.error (.nameError "ClientCheckpointChallengeError"), store, 0, i + 1⟩

/-- `app2.py` `login()` at its default arguments (`retries=3`). -/
def login_app2 (attempts : Nat → AttemptResult) (w : WriteOutcome) (store : Store) :
    RunResult (Option Client) :=
  login_app2_go attempts w store 0 3

/-- External outcomes for one `app2.py` `get_api` run. -/
structure Env2 where
  probe : Except Exc Unit
  attempts : Nat → AttemptResult
  write : WriteOutcome

/-- `app2.py` `get_api`: load (never raises), and if a client came back,
probe it with `api.current_user()`.  When the probe raises, the first
handler `except (ClientCookieExpiredError, ClientLoginError)` evaluates
`ClientCookieExpiredError`, a name that is never imported in `app2.py`,
so a `NameError` propagates before any handler body (including the later
`except Exception`) can run: the re-login branch is unreachable.  When
load returns `None`, a fresh `login()` is performed. -/
def get_api_app2 (store : Store) (env : Env2) : RunResult (Option Client) :=
  match load_session_app2 store with
  | some api =>
    match env.probe with
    | .ok _ => ⟨.ok (some api), store, 0, 0⟩
    | .error _ => ⟨.error (.nameError "ClientCookieExpiredError"), store, 0, 0⟩
  | none => login_app2 env.attempts env.write store

/-! ### Media composition (the block guarded by `audio_clip_path`) -/

/-- Where an audio track came from: the trimmed preview exported to
`preview.mp3`, or the uploaded video's own embedded audio. -/
inductive ASource where
  | trimmedAudio
  | uploadedVideo
deriving DecidableEq, Repr

/-- An audio clip with its provenance and duration (seconds, exact). -/
structure ATrack where
  src : ASource
  duration : ℚ
deriving DecidableEq, Repr

/-- A video clip: its duration and its attached audio, if any. -/
structure VClip where
  duration : ℚ
  audio : Option ATrack
deriving DecidableEq, Repr

/-- `clip.subclip(s, e)` on an audio clip. -/
def ATrack.subclip (t : ATrack) (s e : ℚ) : ATrack :=
  { t with duration := e - s }

/-- `video.subclip(s, e)`: cuts the video and its embedded audio. -/
def VClip.subclip (v : VClip) (s e : ℚ) : VClip :=
  { duration := e - s, audio := v.audio.map (fun t => t.subclip s e) }

/-- `clip.set_audio(a)`. -/
def VClip.set_audio (v : VClip) (t : ATrack) : VClip :=
  { v with audio := some t }

/-- `app.py` lines 217–238: `isImage` is
`uploaded_file.name.lower().endswith(('jpg','jpeg','png'))`, `audioDur` the
duration of the trimmed audio clip, `uploadedVideo` the uploaded clip when
it is a video.  The image branch builds an `ImageClip` of duration
`min(15, audio_duration)` and attaches `audio_clip.subclip(0, that)`; the
video branch cuts both to `min(15, video_duration, audio_duration)` and
attaches the cut audio via `set_audio`. -/
def compose_app1 (isImage : Bool) (audioDur : ℚ) (uploadedVideo : VClip) : VClip :=
  let audio_clip : ATrack := { src := .trimmedAudio, duration := audioDur }
  if isImage then
    let video_duration := min 15 audioDur
    let img_clip : VClip := { duration := video_duration, audio := none }
    let final_audio_clip := audio_clip.subclip 0 video_duration
    img_clip.set_audio final_audio_clip
  else
    let final_video_duration := min (min 15 uploadedVideo.duration) audioDur
    let final_video := uploadedVideo.subclip 0 final_video_duration
    let final_audio_clip := audio_clip.subclip 0 final_video_duration
    final_video.set_audio final_audio_clip

/-- `app2.py` lines 258–277: identical image branch; in the video branch
`final_audio_clip` is computed but `set_audio` is never called, so the
written file keeps the uploaded video's own (cut) audio. -/
def compose_app2 (isImage : Bool) (audioDur : ℚ) (uploadedVideo : VClip) : VClip :=
  let audio_clip : ATrack := { src := .trimmedAudio, duration := audioDur }
  if isImage then
    let video_duration := min 15 audioDur
    let img_clip : VClip := { duration := video_duration, audio := none }
    let final_audio_clip := audio_clip.subclip 0 video_duration
    img_clip.set_audio final_audio_clip
  else
    let final_video_duration := min (min 15 uploadedVideo.duration) audioDur
    let final_video := uploadedVideo.subclip 0 final_video_duration
    let final_audio_clip := audio_clip.subclip 0 final_video_duration
    final_video

/-- Modelled from the spec's words for C9: the persisted record "contains
at minimum the two named fields `settings` and `cookies`". -/
def hasSpecFields (d : PDict) : Prop :=
  (List.lookup "settings" d).isSome = true ∧ (List.lookup "cookies" d).isSome = true

instance (d : PDict) : Decidable (hasSpecFields d) := by
  unfold hasSpecFields; infer_instance

/-! ### Helper lemmas -/

/-- `app.py` `login()` performs exactly one `api.login` attempt, whatever
its outcome and whatever the save medium does. -/
theorem login_app1_attempts (lr : Except Exc Client) (w : WriteOutcome) (store : Store) :
    (login_app1 lr w store).loginAttempts = 1 := by
  cases lr <;> cases w <;> rfl

/-- No run of `app.py` `get_api` performs more than one login attempt. -/
theorem get_api_app1_attempts_le_one (store : Store) (env : Env) :
    (get_api_app1 store env).loginAttempts ≤ 1 := by
  unfold get_api_app1
  split
  · split
    · exact Nat.zero_le 1
    · split
      · exact Nat.le_of_eq (login_app1_attempts _ _ _)
      · exact Nat.zero_le 1
  · exact Nat.le_of_eq (login_app1_attempts _ _ _)

/-- When the load succeeds and the probe raises nothing, the `try` body of
`app.py` `get_api` returns the loaded client. -/
theorem tryLoadAndProbe1_ok (store : Store) (api : Client)
    (h : load_session_app1 store = .ok api) :
    tryLoadAndProbe1 store (.ok ()) = .ok api := by
  unfold tryLoadAndProbe1
  rw [h]
  rfl

/-! ### Claims -/

/-- Claim C1 counterexample: in `app.py`, `get_api` on a corrupt store does
not return Absent/None to the caller — the deserialization error
propagates as a raised exception, because `get_api`'s handler catches only
`ClientCookieExpiredError` and `ClientLoginError`. -/
theorem C1_counterexample :
    (get_api_app1 (some .corrupt) ⟨.ok (), .ok ⟨"c2", "s2"⟩, .ok⟩).outcome
      = .error .unpickling := rfl

/-- Claim C1 (amended): in `app2.py`, `load_session` on a truncated/corrupt
store — or on a record missing the field it expects — returns `None` and
`get_api` falls through to a fresh login without raising; in `app.py`, a
corrupt store makes `get_api` propagate the deserialization error to the
caller. -/
theorem C1_amended :
    load_session_app2 (some .corrupt) = none
  ∧ load_session_app2 (some (.pickled [("cookie", "c"), ("settings", "s")])) = none
  ∧ (∀ env : Env2, get_api_app2 (some .corrupt) env
       = login_app2 env.attempts env.write (some .corrupt))
  ∧ (∀ env : Env, (get_api_app1 (some .corrupt) env).outcome = .error .unpickling) :=
  ⟨rfl, rfl, fun _ => rfl, fun _ => rfl⟩

/-- Claim C2: the save-then-load round-trip holds in `app.py`, but in
`app2.py` loading what `save_session` wrote always yields `None`:
`save_session` writes the cookie jar under the key `cookie` while
`load_session` reads the key `cookie_jar`, so the bundle is never read
back. -/
theorem C2_roundtrip_key_mismatch :
    (∀ (api : Client) (store : Store),
        load_session_app1 (save_session_app1 api store .ok).2 = .ok api)
  ∧ (∀ (api : Client) (store : Store),
        load_session_app2 (save_session_app2 api store .ok).1 = none) :=
  ⟨fun _ _ => rfl, fun _ _ => rfl⟩

/-- Claim C3 counterexample: the store holds the bundle
{cookie c1, settings s1}; a save of a new bundle fails during the write;
the previously persisted bundle does not remain unchanged — the file was
truncated to a corrupt partial record — and it is no longer loadable. -/
theorem C3_counterexample :
    (save_session_app1 ⟨"c2", "s2"⟩
        (some (.pickled [("cookie", "c1"), ("settings", "s1")])) .failsDuringWrite).2
      ≠ some (.pickled [("cookie", "c1"), ("settings", "s1")])
  ∧ load_session_app1 ((save_session_app1 ⟨"c2", "s2"⟩
        (some (.pickled [("cookie", "c1"), ("settings", "s1")])) .failsDuringWrite).2)
      = .error .unpickling :=
  ⟨by decide, rfl⟩

/-- Claim C3 (amended): a failed save reports the failure (it raises in
`app.py`; `app2.py` reports an error and returns), but the store was
truncated on open, so whatever it previously held is destroyed: the store
ends corrupt, a subsequent load treats it as absent in `app2.py` and
raises in `app.py`. -/
theorem C3_amended (api : Client) (store : Store) :
    (save_session_app1 api store .failsDuringWrite).1 = .error .ioError
  ∧ (save_session_app1 api store .failsDuringWrite).2 = some .corrupt
  ∧ (save_session_app2 api store .failsDuringWrite).2 = true
  ∧ (save_session_app2 api store .failsDuringWrite).1 = some .corrupt
  ∧ load_session_app2 (save_session_app2 api store .failsDuringWrite).1 = none
  ∧ load_session_app1 (save_session_app1 api store .failsDuringWrite).2 = .error .unpickling :=
  ⟨rfl, rfl, rfl, rfl, rfl, rfl⟩

/-- Claim C4: in `app.py` every `get_api` run performs at most one login
attempt and the expired-session path performs exactly one; in `app2.py`,
a loaded session whose `current_user()` probe raises the expiry error
makes `get_api` raise `NameError` — the handler names
`ClientCookieExpiredError`, which `app2.py` never imports — with zero
re-login attempts. -/
theorem C4_single_relogin :
    (∀ (store : Store) (env : Env), (get_api_app1 store env).loginAttempts ≤ 1)
  ∧ (∀ (lr : Except Exc Client) (w : WriteOutcome),
        (get_api_app1 (some (.pickled [("cookie", "c"), ("settings", "s")]))
            ⟨.error .clientCookieExpired, lr, w⟩).loginAttempts = 1)
  ∧ (get_api_app2 (some (.pickled [("cookie_jar", "c"), ("settings", "s")]))
        ⟨.error .clientCookieExpired, fun _ => .clientLoginErr, .ok⟩
      = ⟨.error (.nameError "ClientCookieExpiredError"),
         some (.pickled [("cookie_jar", "c"), ("settings", "s")]), 0, 0⟩) :=
  ⟨fun store env => get_api_app1_attempts_le_one store env,
   fun lr w => login_app1_attempts lr w _,
   rfl⟩

/-- Claim C5 counterexample: in `app.py`, login succeeds with the bundle
{cookie c, settings s} but persisting it fails; `get_api` raises the save
error instead of returning the in-memory bundle, so the failed save aborts
the login that produced it. -/
theorem C5_counterexample :
    (get_api_app1 none ⟨.ok (), .ok ⟨"c", "s"⟩, .failsDuringWrite⟩).outcome
      = .error .ioError
  ∧ (get_api_app1 none ⟨.ok (), .ok ⟨"c", "s"⟩, .failsDuringWrite⟩).outcome
      ≠ .ok ⟨"c", "s"⟩ :=
  ⟨rfl, fun h => nomatch h⟩

/-- Claim C5 (amended): in `app2.py` a failed save is reported and `login`
still returns the in-memory bundle; in `app.py` `save_session` catches
nothing, so a failed save propagates out of `login`/`get_api` and the
bundle is not returned. -/
theorem C5_amended (api : Client) (store : Store) (probe : Except Exc Unit) :
    (login_app2 (fun _ => .success api) .failsDuringWrite store).outcome = .ok (some api)
  ∧ (save_session_app2 api store .failsDuringWrite).2 = true
  ∧ (get_api_app1 none ⟨probe, .ok api, .failsDuringWrite⟩).outcome = .error .ioError :=
  ⟨rfl, rfl, rfl⟩

/-- Claim C6: when the session file does not exist, the load phase returns
Absent/None without raising and both `get_api` variants fall through to a
fresh login. -/
theorem C6_missing_store :
    load_session_app2 none = none
  ∧ (∀ env : Env2, get_api_app2 none env = login_app2 env.attempts env.write none)
  ∧ (∀ env : Env, get_api_app1 none env = login_app1 env.loginResult env.write none) :=
  ⟨rfl, fun _ => rfl, fun _ => rfl⟩

/-- Claim C7: a loaded bundle that passes the `current_user()` probe is
returned to the caller exactly as loaded; the store is left untouched,
`save_session` is never called and no login attempt is made, in both
variants. -/
theorem C7_cached_valid (s1 s2 : Store) (api1 api2 : Client)
    (h1 : load_session_app1 s1 = .ok api1)
    (h2 : load_session_app2 s2 = some api2)
    (lr : Except Exc Client) (att : Nat → AttemptResult) (w : WriteOutcome) :
    get_api_app1 s1 ⟨.ok (), lr, w⟩ = ⟨.ok api1, s1, 0, 0⟩
  ∧ get_api_app2 s2 ⟨.ok (), att, w⟩ = ⟨.ok (some api2), s2, 0, 0⟩ := by
  constructor
  · cases s1 with
    | none => exact absurd h1 (fun h => nomatch h)
    | some fc =>
      have hb := tryLoadAndProbe1_ok (some fc) api1 h1
      unfold get_api_app1
      rw [hb]
      rfl
  · unfold get_api_app2
    rw [h2]

/-- Claim C7 witness: the theorem at concrete stores holding a valid bundle
in each variant's expected format. -/
theorem C7_witness :
    get_api_app1 (some (.pickled [("cookie", "c"), ("settings", "s")]))
        ⟨.ok (), .error .clientLogin, .ok⟩
      = ⟨.ok ⟨"c", "s"⟩, some (.pickled [("cookie", "c"), ("settings", "s")]), 0, 0⟩
  ∧ get_api_app2 (some (.pickled [("cookie_jar", "c"), ("settings", "s")]))
        ⟨.ok (), fun _ => .clientLoginErr, .ok⟩
      = ⟨.ok (some ⟨"c", "s"⟩),
         some (.pickled [("cookie_jar", "c"), ("settings", "s")]), 0, 0⟩ :=
  C7_cached_valid (some (.pickled [("cookie", "c"), ("settings", "s")]))
    (some (.pickled [("cookie_jar", "c"), ("settings", "s")]))
    ⟨"c", "s"⟩ ⟨"c", "s"⟩ rfl rfl (.error .clientLogin) (fun _ => .clientLoginErr) .ok

/-- Claim C8: in `app.py`, a successful re-login overwrites the slot
wholesale — whatever the prior store held, the resulting store is exactly
the record of the new bundle and a subsequent load returns exactly that
bundle, nothing merged; in `app2.py`, after the new bundle is saved, a
subsequent load returns `None` rather than the bundle (the key written is
`cookie`, the key read is `cookie_jar`). -/
theorem C8_relogin_overwrite :
    (∀ (store : Store) (b2 : Client),
        (login_app1 (.ok b2) .ok store).store
          = some (.pickled [("cookie", b2.cookie_jar), ("settings", b2.settings)])
      ∧ load_session_app1 (login_app1 (.ok b2) .ok store).store = .ok b2)
  ∧ (∀ (store : Store) (b2 : Client),
        (login_app2 (fun _ => .success b2) .ok store).store
          = some (.pickled [("cookie", b2.cookie_jar), ("settings", b2.settings)])
      ∧ load_session_app2 (login_app2 (fun _ => .success b2) .ok store).store = none) :=
  ⟨fun _ _ => ⟨rfl, rfl⟩, fun _ _ => ⟨rfl, rfl⟩⟩

/-- Claim C9 counterexample: the record written by `save_session` for the
bundle {cookie c, settings s} has no field named `cookies`: the cookie jar
is stored under the key `cookie`, so the spec's field layout does not hold
of the written record. -/
theorem C9_counterexample :
    (save_session_app1 ⟨"c", "s"⟩ none .ok).2
      = some (.pickled [("cookie", "c"), ("settings", "s")])
  ∧ ¬ hasSpecFields [("cookie", "c"), ("settings", "s")] :=
  ⟨rfl, by decide⟩

/-- Claim C9 (amended): both variants persist a single serialized record
with exactly the two named fields `settings` and `cookie` (singular);
there is no field named `cookies`. -/
theorem C9_amended (api : Client) (store : Store) :
    (save_session_app1 api store .ok).2
      = some (.pickled [("cookie", api.cookie_jar), ("settings", api.settings)])
  ∧ (save_session_app2 api store .ok).1
      = some (.pickled [("cookie", api.cookie_jar), ("settings", api.settings)])
  ∧ List.lookup "settings" [("cookie", api.cookie_jar), ("settings", api.settings)]
      = some api.settings
  ∧ List.lookup "cookie" [("cookie", api.cookie_jar), ("settings", api.settings)]
      = some api.cookie_jar
  ∧ List.lookup "cookies" [("cookie", api.cookie_jar), ("settings", api.settings)] = none :=
  ⟨rfl, rfl, rfl, rfl, rfl⟩

/-- Claim C9 witness: the amended layout evaluated on a concrete bundle. -/
theorem C9_amended_witness :
    (save_session_app2 ⟨"jar", "cfg"⟩ none .ok).1
      = some (.pickled [("cookie", "jar"), ("settings", "cfg")]) :=
  (C9_amended ⟨"jar", "cfg"⟩ none).2.1

/-- Claim C10 counterexample: a 20-second uploaded video with no embedded
audio and a 10-second trimmed track.  In `app2.py`'s video branch the
output has duration `min(15, 20, 10) = 10`, but the trimmed audio clip cut
to 10 s is not attached — `set_audio` is never called — so the output
carries no trimmed audio, contrary to the claim. -/
theorem C10_counterexample :
    (compose_app2 false 10 ⟨20, none⟩).duration = 10
  ∧ (compose_app2 false 10 ⟨20, none⟩).audio ≠ some ⟨.trimmedAudio, 10⟩ := by
  constructor
  · simp only [compose_app2, VClip.subclip, sub_zero]
    norm_num
  · intro h
    simp [compose_app2, VClip.subclip] at h

/-- Claim C10 (amended): in both variants the composed output's duration is
`min(15, trimmed-audio duration)` for an image upload and
`min(15, video duration, trimmed-audio duration)` for a video upload, so it
never exceeds 15 seconds; the trimmed audio clip cut to exactly that
duration is attached in both branches of `app.py` and in the image branch
of `app2.py`, while `app2.py`'s video branch computes the cut audio clip
but does not attach it: the output keeps the uploaded video's own audio,
cut together with the video. -/
theorem C10_amended (audioDur : ℚ) (v : VClip) :
    (compose_app1 true audioDur v).duration = min 15 audioDur
  ∧ (compose_app1 false audioDur v).duration = min (min 15 v.duration) audioDur
  ∧ (compose_app2 true audioDur v).duration = min 15 audioDur
  ∧ (compose_app2 false audioDur v).duration = min (min 15 v.duration) audioDur
  ∧ (compose_app1 true audioDur v).duration ≤ 15
  ∧ (compose_app1 false audioDur v).duration ≤ 15
  ∧ (compose_app2 true audioDur v).duration ≤ 15
  ∧ (compose_app2 false audioDur v).duration ≤ 15
  ∧ (compose_app1 true audioDur v).audio = some ⟨.trimmedAudio, min 15 audioDur⟩
  ∧ (compose_app1 false audioDur v).audio
      = some ⟨.trimmedAudio, min (min 15 v.duration) audioDur⟩
  ∧ (compose_app2 true audioDur v).audio = some ⟨.trimmedAudio, min 15 audioDur⟩
  ∧ (compose_app2 false audioDur v).audio
      = v.audio.map (fun t => t.subclip 0 (min (min 15 v.duration) audioDur)) := by
  refine ⟨?_, ?_, ?_, ?_, ?_, ?_, ?_, ?_, ?_, ?_, ?_, ?_⟩
  · simp [compose_app1, VClip.set_audio]
  · simp [compose_app1, VClip.set_audio, VClip.subclip]
  · simp [compose_app2, VClip.set_audio]
  · simp [compose_app2, VClip.subclip]
  · simp only [compose_app1, VClip.set_audio]
    exact min_le_left _ _
  · simp only [compose_app1, VClip.set_audio, VClip.subclip, sub_zero]
    exact le_trans (min_le_left _ _) (min_le_left _ _)
  · simp only [compose_app2, VClip.set_audio]
    exact min_le_left _ _
  · simp only [compose_app2, VClip.subclip, sub_zero]
    exact le_trans (min_le_left _ _) (min_le_left _ _)
  · simp [compose_app1, VClip.set_audio, ATrack.subclip]
  · simp [compose_app1, VClip.set_audio, VClip.subclip, ATrack.subclip]
  · simp [compose_app2, VClip.set_audio, ATrack.subclip]
  · simp [compose_app2, VClip.subclip, ATrack.subclip]
